import Mathlib

/-
Verification of the transcript-analytics pipeline
(`data_pipeline.py`, `summarizer.py`) against its specification.

The Python source is shallowly embedded: pandas DataFrames become lists of
records; NaN/None cells become `Option` values; Python exceptions become
`Except` errors; the external NLTK tokenizer/lemmatizer/stopword corpus and
the external summarization model are parameters of the embedded functions.
-/

/-- A row of the flattened DataFrame (`data_pipeline.py`, `DataLoader.to_dataframe`
lines 50-58): one record per turn, nullable cells as `Option`.
`knowledge_source` is opaque in the source (any JSON value); it is modelled as
an `Option String` since only its exclusion from the duplicate key matters. -/
structure Row where
  transcript_id : String
  article_url : Option String := none
  message : Option String := none
  agent : Option String := none
  sentiment : Option String := none
  knowledge_source : Option String := none
  turn_rating : Option String := none
deriving DecidableEq

/-- The duplicate-identification key of `DataCleaner.remove_duplicates`
(line 78): `subset=['transcript_id', 'agent', 'message']`. -/
abbrev RowKey := String × Option String × Option String

/-- Key extraction for `drop_duplicates(subset=['transcript_id','agent','message'])`. -/
def rowKey (r : Row) : RowKey := (r.transcript_id, r.agent, r.message)

/-- Pandas `drop_duplicates` semantics (keep='first'): walk the rows in order,
keeping a row iff its key has not been seen before. Pandas treats NaN cells as
equal to each other when detecting duplicates, which the `Option` equality of
`RowKey` reproduces (`none = none`). -/
def dropDupAux (seen : List RowKey) : List Row → List Row
  | [] => []
  | r :: rs =>
    if rowKey r ∈ seen then dropDupAux seen rs
    else r :: dropDupAux (rowKey r :: seen) rs

/-- `DataCleaner.remove_duplicates` (`data_pipeline.py` lines 75-79). -/
def removeDuplicates (rs : List Row) : List Row := dropDupAux [] rs

/-- `DataCleaner.handle_missing_values` (lines 81-87):
`dropna(subset=['message', 'agent'])`. -/
def handleMissingValues (rs : List Row) : List Row :=
  rs.filter (fun r => r.message.isSome && r.agent.isSome)

/-- `DataCleaner.clean_data` (lines 89-93): duplicates first, then missing values. -/
def cleanData (rs : List Row) : List Row :=
  handleMissingValues (removeDuplicates rs)

/-- Python `string.punctuation` (the 32 ASCII punctuation characters, in order). -/
def punctuationStr : String := "!\"#$%&\x27()*+,-./:;<=>?@[\\]^_\x60\x7b|\x7d~"

/-- `as` is a leading segment of `bs`. -/
def startsWithL : List Char → List Char → Bool
  | [], _ => true
  | _ :: _, [] => false
  | a :: as, b :: bs => a == b && startsWithL as bs

/-- `n` occurs contiguously inside `h`. -/
def substrAt (n : List Char) : List Char → Bool
  | [] => startsWithL n []
  | c :: h => startsWithL n (c :: h) || substrAt n h

/-- Python's `needle in hay` on strings: contiguous-substring membership. -/
def pyInStr (needle hay : String) : Bool := substrAt needle.data hay.data

/-- The token-removal stage of `DataPreprocessor.preprocess_text`
(`data_pipeline.py` lines 115-118):
`token not in stop_words and token not in string.punctuation`.
`stop_words` is the external NLTK English stopword corpus, passed as the
parameter `stop`; the punctuation test is Python string containment, i.e.
substring membership in `string.punctuation`. -/
def filterTokens (stop : String → Bool) (tokens : List String) : List String :=
  tokens.filter (fun t => !(stop t) && !(pyInStr t punctuationStr))

/-- The token-removal stage as the specification words it: a token is removed
exactly when it is a member of the stopword set or is a single character of
the ASCII punctuation set (multi-character tokens are never removed by the
punctuation test). Stated for comparison with `filterTokens`. -/
def filterTokensSpec (stop : String → Bool) (tokens : List String) : List String :=
  tokens.filter (fun t =>
    !(stop t) && !((punctuationStr.data.map (fun c => String.singleton c)).contains t))

/-- A Python value arriving in the `text` argument of `preprocess_text`:
a string cell, a numeric cell, or a missing (None/NaN) cell. -/
inductive PyVal
  | pstr (s : String)
  | pint (n : Int)
  | pnone
deriving DecidableEq

/-- `isinstance(text, str)` (line 110). -/
def isStrVal : PyVal → Bool
  | .pstr _ => true
  | _ => false

/-- `DataPreprocessor.preprocess_text` (`data_pipeline.py` lines 102-120):
non-strings yield `""`; a string is lowercased, tokenized (external NLTK
`word_tokenize`, parameter `tok`), filtered, lemmatized token-by-token
(external NLTK `WordNetLemmatizer.lemmatize`, parameter `lem`), and joined
with single spaces. -/
def preprocessText (tok : String → List String) (lem : String → String)
    (stop : String → Bool) : PyVal → String
  | .pstr s => String.intercalate " " (((filterTokens stop (tok s.toLower))).map lem)
  | _ => ""

/-- Resource-initialization actions performed by `data_pipeline.py`. -/
inductive ResourceEvent
  | downloadStopwords
  | downloadPunkt
  | downloadWordnet
  | loadStopwords
  | mkLemmatizer
  | mkStopwordSet
deriving DecidableEq

/-- The module-level resource loading of `data_pipeline.py` lines 11-16,
executed once at import: three `nltk.download` calls, a force-load of the
stopword corpus, and construction of a `WordNetLemmatizer`. -/
def moduleInitEvents : List ResourceEvent :=
  [.downloadStopwords, .downloadPunkt, .downloadWordnet, .loadStopwords, .mkLemmatizer]

/-- The resource (re)construction performed inside every call of
`preprocess_text` (lines 107-108): `lemmatizer = WordNetLemmatizer()` and
`stop_words = set(stopwords.words('english'))`. -/
def preprocessCallResourceEvents : List ResourceEvent :=
  [.mkLemmatizer, .mkStopwordSet]

/-- The resource-event trace of a process that imports the module and then
performs `n` calls of `preprocess_text`. -/
def processTrace (n : Nat) : List ResourceEvent :=
  moduleInitEvents ++ (List.replicate n preprocessCallResourceEvents).flatten

/-- A parsed JSON value, as produced by `json.load`. -/
inductive JValue
  | null
  | jbool (b : Bool)
  | num (n : Int)
  | str (s : String)
  | arr (elems : List JValue)
  | obj (fields : List (String × JValue))

/-- Python exceptions raised by the embedded code. -/
inductive PyError
  | fileNotFound
  | attributeError
  | typeError
  | indexError
  | collaboratorError
deriving DecidableEq

/-- First-match lookup in a JSON object (`dict` keys are unique, so first
match is the only match). -/
def jlookup (key : String) : List (String × JValue) → Option JValue
  | [] => none
  | (k, v) :: rest => if k == key then some v else jlookup key rest

/-- `dict.get(key)`: the value, or Python `None` (JSON null) when absent. -/
def jget (fields : List (String × JValue)) (key : String) : JValue :=
  (jlookup key fields).getD .null

/-- Whether a JSON value is an object (a Python `dict`). -/
def JValue.isObjB : JValue → Bool
  | .obj _ => true
  | _ => false

/-- One row of the flattened table as `to_dataframe` builds it
(`data_pipeline.py` lines 50-58), with raw JSON cell values. -/
structure FlatRec where
  transcript_id : String
  article_url : JValue
  message : JValue
  agent : JValue
  sentiment : JValue
  knowledge_source : JValue
  turn_rating : JValue

/-- The record built for one turn (lines 50-59): `turn.get(...)` requires the
turn to be a dict, otherwise Python raises `AttributeError`. -/
def turnToRec (tid : String) (url : JValue) : JValue → Except PyError FlatRec
  | .obj fs => .ok
      { transcript_id := tid
        article_url := url
        message := jget fs "message"
        agent := jget fs "agent"
        sentiment := jget fs "sentiment"
        knowledge_source := jget fs "knowledge_source"
        turn_rating := jget fs "turn_rating" }
  | _ => .error .attributeError

/-- The inner loop `for turn in data.get('content', [])` (line 49) over one
record's `content` value. Iterating a list visits its elements; iterating a
dict visits its (string) keys and a string visits its characters, so any
nonempty dict or string makes `turn.get` raise `AttributeError`; null,
booleans and numbers are not iterable (`TypeError`). -/
def contentRows (tid : String) (url : JValue) : JValue → Except PyError (List FlatRec)
  | .arr turns => turns.mapM (turnToRec tid url)
  | .obj [] => .ok []
  | .str "" => .ok []
  | .obj (_ :: _) => .error .attributeError
  | .str _ => .error .attributeError
  | _ => .error .typeError

/-- The outer loop `for transcript_id, data in self.raw_data.items()`
(lines 47-59): each record must be a dict (else `data.get` raises
`AttributeError`); `article_url` defaults to null, `content` defaults to
the empty list. -/
def entriesRows : List (String × JValue) → Except PyError (List FlatRec)
  | [] => .ok []
  | (tid, data) :: rest => do
    let rs ← match data with
      | .obj fs => contentRows tid (jget fs "article_url") ((jlookup "content" fs).getD (.arr []))
      | _ => .error .attributeError
    let more ← entriesRows rest
    .ok (rs ++ more)

/-- `DataLoader.to_dataframe` (`data_pipeline.py` lines 41-61): `.items()` on
a non-dict top level raises `AttributeError`. -/
def toDataFrame (raw : JValue) : Except PyError (List FlatRec) :=
  match raw with
  | .obj entries => entriesRows entries
  | _ => .error .attributeError

/-- `DataLoader.load_data` (lines 31-39): `open` raises `FileNotFoundError`
when the file does not exist; otherwise `json.load` yields the parsed value.
The file system is modelled as `Option JValue` (`none` = missing file). -/
def loadData (source : Option JValue) : Except PyError JValue :=
  match source with
  | none => .error .fileNotFound
  | some v => .ok v

/-- Pandas elementwise `==` against a possibly-NaN cell: NaN compares unequal
to everything, including NaN. Used by `transcript_df[transcript_df['agent'] == agent]`. -/
def pandasEq : Option String → Option String → Bool
  | some a, some b => a == b
  | _, _ => false

/-- First-seen-order distinct values, as pandas `Series.unique` returns them. -/
def uniqueFirstSeenAux [DecidableEq α] (seen : List α) : List α → List α
  | [] => []
  | a :: l =>
    if a ∈ seen then uniqueFirstSeenAux seen l
    else a :: uniqueFirstSeenAux (a :: seen) l

/-- `Series.unique()` (first-seen order, one entry per distinct value). -/
def uniqueFirstSeen [DecidableEq α] (l : List α) : List α := uniqueFirstSeenAux [] l

/-- Number of occurrences of `v` in `l`. -/
def countOcc (l : List String) (v : String) : Nat :=
  (l.filter (fun x => x == v)).length

/-- Lexicographic (code-point) order on character lists, as Python compares
strings. -/
def charsLe : List Char → List Char → Bool
  | [], _ => true
  | _ :: _, [] => false
  | a :: as, b :: bs =>
    if a.val < b.val then true
    else if b.val < a.val then false
    else charsLe as bs

/-- Python string `<=`. -/
def strLeB (a b : String) : Bool := charsLe a.data b.data

/-- Insert `x` into an already-sorted list. -/
def insertSorted (x : String) : List String → List String
  | [] => [x]
  | y :: ys => if strLeB x y then x :: y :: ys else y :: insertSorted x ys

/-- Sort a list of strings ascending (stable insertion sort). -/
def sortStrings : List String → List String
  | [] => []
  | x :: xs => insertSorted x (sortStrings xs)

/-- Pandas `Series.mode()`: drop the NaN entries, then return the values of
maximal multiplicity, sorted ascending. -/
def pandasMode (l : List (Option String)) : List String :=
  let vals := l.filterMap id
  let distinct := uniqueFirstSeen vals
  let m := (distinct.map (countOcc vals)).foldr Nat.max 0
  sortStrings (distinct.filter (fun v => countOcc vals v == m))

/-- One iteration of the sentiment loop (`summarizer.py` lines 59-61):
`agent_sentiments.mode().iloc[0] if not agent_sentiments.empty else "N/A"`.
`.iloc[0]` on an empty mode result (all sentiments NaN) raises `IndexError`. -/
def overallSentimentFor (tdf : List Row) (a : Option String) : Except PyError String :=
  let agent_sentiments := (tdf.filter (fun r => pandasEq r.agent a)).map (fun r => r.sentiment)
  if agent_sentiments.isEmpty then .ok "N/A"
  else
    match pandasMode agent_sentiments with
    | [] => .error .indexError
    | m :: _ => .ok m

/-- The sentiment loop `for agent in transcript_df['agent'].unique()`
(lines 58-61), building the `overall_sentiments` dict in iteration order. -/
def overallLoop (tdf : List Row) : List (Option String) → Except PyError (List (Option String × String))
  | [] => .ok []
  | a :: as => do
    let s ← overallSentimentFor tdf a
    let rest ← overallLoop tdf as
    .ok ((a, s) :: rest)

/-- `" ".join(transcript_df['message'])` (line 64): joining raises `TypeError`
if any cell is not a string (NaN), otherwise concatenates in row order. -/
def joinMessages (tdf : List Row) : Except PyError String :=
  if tdf.all (fun r => r.message.isSome) then
    .ok (String.intercalate " " (tdf.filterMap (fun r => r.message)))
  else .error .typeError

/-- Lines 65-66: the summarization collaborator (parameter `summarize`,
abstracting the pretrained pipeline with its fixed length/no-sampling
arguments) is called with no surrounding try/except, so an exception it
raises propagates; `summary_list[0]['summary_text'] if summary_list else
"Could not generate summary."` handles only the empty-result case. -/
def summaryOf (summarize : String → Except Unit (List String)) (text : String) :
    Except PyError String :=
  match summarize text with
  | .error _ => .error .collaboratorError
  | .ok [] => .ok "Could not generate summary."
  | .ok (s :: _) => .ok s

/-- `msg_counts.get(a, 0)` after `value_counts().to_dict()` (lines 54, 72-73):
the number of rows whose agent cell equals the string `a`. -/
def agentCount (tdf : List Row) (a : String) : Nat :=
  (tdf.filter (fun r => r.agent == some a)).length

/-- `d.get(k, dflt)` on the `overall_sentiments` dict (lines 76-77). -/
def dictGet (d : List (Option String × String)) (k : Option String) (dflt : String) : String :=
  (List.lookup k d).getD dflt

/-- The analysis dictionary returned on success (`summarizer.py` lines 68-85). -/
structure AnalysisResult where
  transcript_id : String
  possible_article_link : Option String
  message_counts : List (String × Nat)
  overall_sentiments : List (String × String)
  conversation_summary : String
  accuracy_report : String
deriving DecidableEq

/-- The constant `accuracy_report` text (lines 80-84). -/
def accuracyReportText : String :=
  "Accuracy for article link, message counts, and overall sentiments is 100% as they are derived directly from the provided dataset, which is treated as the ground truth."

/-- A value returned by `analyze_transcript`: either the not-found error dict
(line 48) or the analysis dict (lines 68-85). -/
inductive AnalyzeOutput
  | errorDict (msg : String)
  | result (r : AnalysisResult)
deriving DecidableEq

/-- The result dict literal of lines 68-85, with the hardcoded
`agent_1`/`agent_2` keys of `message_counts` and `overall_sentiments`. -/
def mkResult (tid : String) (tdf : List Row) (r0 : Row)
    (overall : List (Option String × String)) (summary : String) : AnalysisResult :=
  { transcript_id := tid
    possible_article_link := r0.article_url
    message_counts :=
      [("agent_1", agentCount tdf "agent_1"), ("agent_2", agentCount tdf "agent_2")]
    overall_sentiments :=
      [("agent_1", dictGet overall (some "agent_1") "N/A"),
       ("agent_2", dictGet overall (some "agent_2") "N/A")]
    conversation_summary := summary
    accuracy_report := accuracyReportText }

/-- The summarizer-independent prefix of `analyze_transcript`
(`summarizer.py` lines 45-64), in program order: filter the cached table by
`transcript_id` (line 45); an empty match is reported (line 48, `none`
here); otherwise run the sentiment loop (lines 58-61) and then the message
join (line 64), each raised exception propagating. On success it yields the
matching rows, their first row, the `overall_sentiments` dict and the joined
transcript text. -/
def analyzePre (df : List Row) (tid : String) :
    Except PyError (Option (List Row × Row × List (Option String × String) × String)) :=
  match df.filter (fun r => r.transcript_id == tid) with
  | [] => .ok none
  | r0 :: rest =>
    match overallLoop (r0 :: rest) (uniqueFirstSeen ((r0 :: rest).map (fun r => r.agent))) with
    | .error e => .error e
    | .ok overall =>
      match joinMessages (r0 :: rest) with
      | .error e => .error e
      | .ok text => .ok (some (r0 :: rest, r0, overall, text))

/-- `TranscriptAnalyzer.analyze_transcript` (`summarizer.py` lines 38-85):
the prefix above, then the error dict of line 48 when no rows matched, then
the collaborator call of lines 65-66 (whose raised exception propagates) and
the result dict of lines 68-85. -/
def analyzeTranscript (summarize : String → Except Unit (List String))
    (df : List Row) (tid : String) : Except PyError AnalyzeOutput :=
  match analyzePre df tid with
  | .error e => .error e
  | .ok none => .ok (.errorDict ("Transcript ID \x27" ++ tid ++ "\x27 not found."))
  | .ok (some (tdf, r0, overall, text)) =>
    match summaryOf summarize text with
    | .error e => .error e
    | .ok summary => .ok (.result (mkResult tid tdf r0 overall summary))

/-- A collaborator that succeeds with one summary. -/
def sOK : String → Except Unit (List String) := fun _ => .ok ["SUMMARY"]

/-- A collaborator that returns no result (empty list). -/
def sEmpty : String → Except Unit (List String) := fun _ => .ok []

/-- A collaborator that raises. -/
def sFail : String → Except Unit (List String) := fun _ => .error ()

/-- A cleaned row whose agent has only a null sentiment: reachable, since
cleaning drops rows only for null `message`/`agent` and keeps null
`sentiment`. -/
def rowNullSentiment : Row :=
  { transcript_id := "t1", article_url := some "u", message := some "hi",
    agent := some "agent_1", sentiment := none }

/-- A one-row transcript for exercising the summary step. -/
def rowPositive : Row :=
  { transcript_id := "t", article_url := some "u", message := some "hi",
    agent := some "agent_1", sentiment := some "Positive" }

/-- The analysis of `[rowPositive]` under the succeeding collaborator `sOK`. -/
def resPositive : AnalysisResult :=
  mkResult "t" [rowPositive] rowPositive [(some "agent_1", "Positive")] "SUMMARY"

/-- A one-row transcript whose only agent is named `"agent_3"`. -/
def rowAgent3 : Row :=
  { transcript_id := "t1", article_url := some "u", message := some "hello",
    agent := some "agent_3", sentiment := some "Positive" }

/-- The analysis of `[rowAgent3]` under the succeeding collaborator `sOK`. -/
def resAgent3 : AnalysisResult :=
  mkResult "t1" [rowAgent3] rowAgent3 [(some "agent_3", "Positive")] "SUMMARY"

/-- Every output of the duplicate scan is a sublist (order-preserving
selection) of its input. -/
theorem dropDupAux_sublist (l : List Row) : ∀ seen : List RowKey, List.Sublist (dropDupAux seen l) l := by
  induction l with
  | nil => intro seen; simp [dropDupAux]
  | cons r rs ih =>
    intro seen
    by_cases h : rowKey r ∈ seen
    · simp only [dropDupAux, if_pos h]
      exact (ih seen).cons r
    · simp only [dropDupAux, if_neg h]
      exact (ih _).cons₂ r

/-- A surviving row's key was not among the already-seen keys. -/
theorem dropDupAux_not_seen (l : List Row) :
    ∀ (seen : List RowKey) (r : Row), r ∈ dropDupAux seen l → rowKey r ∉ seen := by
  induction l with
  | nil => intro seen r h; simp [dropDupAux] at h
  | cons a rs ih =>
    intro seen r h
    by_cases ha : rowKey a ∈ seen
    · simp only [dropDupAux, if_pos ha] at h
      exact ih seen r h
    · simp only [dropDupAux, if_neg ha] at h
      rcases List.mem_cons.mp h with rfl | h'
      · exact ha
      · intro hs
        exact ih _ r h' (List.mem_cons_of_mem _ hs)

/-- Surviving rows have pairwise distinct duplicate keys. -/
theorem dropDupAux_pairwise (l : List Row) :
    ∀ seen : List RowKey, (dropDupAux seen l).Pairwise (fun a b => rowKey a ≠ rowKey b) := by
  induction l with
  | nil => intro seen; simp [dropDupAux]
  | cons a rs ih =>
    intro seen
    by_cases ha : rowKey a ∈ seen
    · simp only [dropDupAux, if_pos ha]
      exact ih seen
    · simp only [dropDupAux, if_neg ha]
      refine List.Pairwise.cons ?_ (ih _)
      intro b hb heq
      have hnot := dropDupAux_not_seen rs _ b hb
      exact hnot (heq ▸ List.mem_cons_self _ _)

/-- Moving a key out of the seen set is the same as pre-filtering the rows
with that key out of the input. -/
theorem dropDupAux_mid (k : RowKey) (l : List Row) :
    ∀ s₁ s₂ : List RowKey,
      dropDupAux (s₁ ++ k :: s₂) l
        = dropDupAux (s₁ ++ s₂) (l.filter (fun x => !(rowKey x == k))) := by
  induction l with
  | nil => intro s₁ s₂; simp [dropDupAux]
  | cons a rs ih =>
    intro s₁ s₂
    by_cases hk : rowKey a = k
    · have hmem : rowKey a ∈ s₁ ++ k :: s₂ := by simp [hk]
      have hfa : (!(rowKey a == k)) = false := by simp [hk]
      simp only [dropDupAux, if_pos hmem, List.filter_cons, hfa]
      simp only [Bool.false_eq_true, if_false]
      exact ih s₁ s₂
    · have hfa : (!(rowKey a == k)) = true := by simp [hk]
      simp only [List.filter_cons, hfa, if_true]
      by_cases hm : rowKey a ∈ s₁ ++ s₂
      · have hmem : rowKey a ∈ s₁ ++ k :: s₂ := by
          rcases List.mem_append.mp hm with h1 | h2
          · exact List.mem_append.mpr (Or.inl h1)
          · exact List.mem_append.mpr (Or.inr (List.mem_cons_of_mem _ h2))
        simp only [dropDupAux, if_pos hmem, if_pos hm]
        exact ih s₁ s₂
      · have hmem : rowKey a ∉ s₁ ++ k :: s₂ := by
          intro hc
          rcases List.mem_append.mp hc with h1 | h2
          · exact hm (List.mem_append.mpr (Or.inl h1))
          · rcases List.mem_cons.mp h2 with h3 | h4
            · exact hk h3
            · exact hm (List.mem_append.mpr (Or.inr h4))
        simp only [dropDupAux, if_neg hmem, if_neg hm]
        exact congrArg (a :: ·) (ih (rowKey a :: s₁) s₂)

/-- Keep-first recurrence of `remove_duplicates`: the head always survives and
every later row with the head's key is discarded. -/
theorem removeDuplicates_cons (r : Row) (rs : List Row) :
    removeDuplicates (r :: rs)
      = r :: removeDuplicates (rs.filter (fun x => !(rowKey x == rowKey r))) := by
  unfold removeDuplicates
  simp only [dropDupAux, List.not_mem_nil, if_neg, not_false_eq_true]
  exact congrArg (r :: ·) (dropDupAux_mid (rowKey r) rs [] [])

/-- C6: `remove_duplicates` deduplicates on the key
`(transcript_id, agent, message)` — `knowledge_source` and all other fields
are excluded — keeps only the first occurrence of each key, and emits the
survivors in first-seen order (the output is an order-preserving sublist in
which the head is always kept and later rows with an equal key are dropped;
two rows equal on the three key fields but different elsewhere deduplicate). -/
theorem remove_duplicates_key_first_order :
    (∀ rs : List Row, List.Sublist (removeDuplicates rs) rs)
    ∧ (∀ (r : Row) (rs : List Row),
        removeDuplicates (r :: rs)
          = r :: removeDuplicates (rs.filter (fun x => !(rowKey x == rowKey r))))
    ∧ (∀ r r' : Row, r.transcript_id = r'.transcript_id → r.agent = r'.agent →
        r.message = r'.message →
        ∀ rs : List Row, removeDuplicates (r :: r' :: rs) = removeDuplicates (r :: rs)) := by
  refine ⟨fun rs => dropDupAux_sublist rs [], fun r rs => removeDuplicates_cons r rs, ?_⟩
  intro r r' h1 h2 h3 rs
  have hkey : rowKey r' = rowKey r := by
    simp [rowKey, h1, h2, h3]
  rw [removeDuplicates_cons r (r' :: rs), removeDuplicates_cons r rs]
  simp [List.filter_cons, hkey]

/-- Witness for C6: two rows equal on the key fields but with different
`knowledge_source` and `turn_rating` deduplicate to the first. -/
theorem remove_duplicates_key_first_order_witness :
    removeDuplicates
        [{ transcript_id := "t", agent := some "agent_1", message := some "m",
           knowledge_source := some "k1", turn_rating := some "Good" },
         { transcript_id := "t", agent := some "agent_1", message := some "m",
           knowledge_source := some "k2", turn_rating := some "Bad" }]
      = removeDuplicates
        [{ transcript_id := "t", agent := some "agent_1", message := some "m",
           knowledge_source := some "k1", turn_rating := some "Good" }] :=
  remove_duplicates_key_first_order.2.2
    { transcript_id := "t", agent := some "agent_1", message := some "m",
      knowledge_source := some "k1", turn_rating := some "Good" }
    { transcript_id := "t", agent := some "agent_1", message := some "m",
      knowledge_source := some "k2", turn_rating := some "Bad" }
    rfl rfl rfl []

/-- C7: `clean_data` runs deduplication first and null-filtering second; its
output has pairwise distinct `(transcript_id, agent, message)` keys and no
null `message` or `agent`; and a deduplication survivor with non-null
`message` and `agent` is retained no matter which of its other fields
(`sentiment`, `turn_rating`, `article_url`) are null. -/
theorem clean_data_invariants :
    (∀ rs : List Row, cleanData rs = handleMissingValues (removeDuplicates rs))
    ∧ (∀ rs : List Row, (cleanData rs).Pairwise (fun a b => rowKey a ≠ rowKey b))
    ∧ (∀ rs : List Row, ∀ r ∈ cleanData rs, r.message ≠ none ∧ r.agent ≠ none)
    ∧ (∀ rs : List Row, ∀ r ∈ removeDuplicates rs,
        r.message.isSome → r.agent.isSome → r ∈ cleanData rs) := by
  refine ⟨fun rs => rfl, ?_, ?_, ?_⟩
  · intro rs
    exact (dropDupAux_pairwise rs []).sublist (List.filter_sublist _)
  · intro rs r hr
    have h := List.mem_filter.mp hr
    have hb := h.2
    simp only [Bool.and_eq_true] at hb
    exact ⟨Option.ne_none_iff_isSome.mpr hb.1, Option.ne_none_iff_isSome.mpr hb.2⟩
  · intro rs r hr hm ha
    exact List.mem_filter.mpr ⟨hr, by simp [hm, ha]⟩

/-- Witness for C7: a row whose `sentiment`, `turn_rating` and `article_url`
are all null but whose `message` and `agent` are present survives cleaning. -/
theorem clean_data_invariants_witness :
    ({ transcript_id := "t", message := some "hello", agent := some "agent_1" } : Row)
      ∈ cleanData [{ transcript_id := "t", message := some "hello", agent := some "agent_1" }] :=
  clean_data_invariants.2.2.2
    [{ transcript_id := "t", message := some "hello", agent := some "agent_1" }]
    { transcript_id := "t", message := some "hello", agent := some "agent_1" }
    (by simp [removeDuplicates, dropDupAux]) rfl rfl

/-- C10: `remove_duplicates` treats null cells as equal inside the key: two
rows with the same `transcript_id` and `agent` whose `message` cells are both
null deduplicate (before any null-filtering), the first surviving as the head
of the result and the second being discarded. -/
theorem dedup_null_message_duplicates (r r' : Row)
    (h1 : r.transcript_id = r'.transcript_id) (h2 : r.agent = r'.agent)
    (h3 : r.message = none) (h4 : r'.message = none) (rs : List Row) :
    removeDuplicates (r :: r' :: rs)
      = r :: removeDuplicates (rs.filter (fun x => !(rowKey x == rowKey r))) := by
  have hkey : rowKey r' = rowKey r := by
    simp [rowKey, h1, h2, h3, h4]
  rw [removeDuplicates_cons r (r' :: rs)]
  simp [List.filter_cons, hkey]

/-- Witness for C10: two rows with equal `transcript_id` and `agent`, both
with a null `message`, collapse to the first. -/
theorem dedup_null_message_duplicates_witness :
    removeDuplicates
        [{ transcript_id := "t", agent := some "agent_1", message := none,
           sentiment := some "Positive" },
         { transcript_id := "t", agent := some "agent_1", message := none,
           sentiment := some "Negative" }]
      = [{ transcript_id := "t", agent := some "agent_1", message := none,
           sentiment := some "Positive" }] :=
  dedup_null_message_duplicates
    { transcript_id := "t", agent := some "agent_1", message := none,
      sentiment := some "Positive" }
    { transcript_id := "t", agent := some "agent_1", message := none,
      sentiment := some "Negative" }
    rfl rfl rfl rfl []

/-- A single character that occurs in a string is a contiguous substring of it. -/
theorem substrAt_singleton (c : Char) :
    ∀ h : List Char, c ∈ h → substrAt [c] h = true := by
  intro h
  induction h with
  | nil => intro hc; simp at hc
  | cons a t ih =>
    intro hc
    simp only [substrAt, Bool.or_eq_true]
    rcases List.mem_cons.mp hc with rfl | hc'
    · left; simp [startsWithL]
    · right; exact ih hc'

/-- Counterexample to C3: the multi-character, all-punctuation token `":;"`
is a contiguous substring of `string.punctuation`, so the code's Python
containment test removes it, while the claimed membership test keeps it. -/
theorem filter_tokens_multichar_counterexample :
    filterTokens (fun _ => false) ["hello", ":;"] = ["hello"]
    ∧ filterTokensSpec (fun _ => false) ["hello", ":;"] = ["hello", ":;"] :=
  ⟨rfl, rfl⟩

/-- C3 (amended): after lowercasing and tokenization a token is removed
exactly when it is a stopword or a contiguous substring of the ASCII
punctuation string (Python `in` on strings); in particular every
single-character punctuation token is dropped, but a multi-character
non-stopword token is dropped too whenever it happens to be a contiguous
substring of `string.punctuation` (e.g. `":;"`). -/
theorem filter_tokens_substring_semantics :
    (∀ (stop : String → Bool) (tokens : List String) (t : String),
      t ∈ filterTokens stop tokens ↔
        t ∈ tokens ∧ stop t = false ∧ pyInStr t punctuationStr = false)
    ∧ (∀ (stop : String → Bool) (c : Char), c ∈ punctuationStr.data →
        filterTokens stop [String.singleton c] = []) := by
  constructor
  · intro stop tokens t
    simp only [filterTokens, List.mem_filter, Bool.and_eq_true, Bool.not_eq_true']
  · intro stop c hc
    have hsub : pyInStr (String.singleton c) punctuationStr = true := by
      have : (String.singleton c).data = [c] := rfl
      simp only [pyInStr, this]
      exact substrAt_singleton c _ hc
    simp [filterTokens, hsub]

/-- Witness for C3 (amended): the single-character token `"!"` is removed. -/
theorem filter_tokens_substring_semantics_witness :
    filterTokens (fun _ => false) [String.singleton (Char.ofNat 33)] = [] :=
  filter_tokens_substring_semantics.2 (fun _ => false) (Char.ofNat 33) (by decide)

/-- Counterexample to C4: the resource-event trace of a process that performs
one `preprocess_text` call differs from the trace of a process that performs
none, so calls do perform resource construction. -/
theorem per_call_reconstruction_counterexample :
    processTrace 1 ≠ processTrace 0 ∧
      preprocessCallResourceEvents = [ResourceEvent.mkLemmatizer, ResourceEvent.mkStopwordSet] :=
  ⟨by decide, rfl⟩

/-- Occurrences of an event in the flattened replication of a block. -/
theorem count_flatten_rep (l : List ResourceEvent) (x : ResourceEvent) :
    ∀ n : Nat, ((List.replicate n l).flatten).count x = n * l.count x := by
  intro n
  induction n with
  | zero => simp
  | succ k ih =>
    simp only [List.replicate_succ, List.flatten_cons, List.count_append, ih]
    ring

/-- C4 (amended): the NLTK corpora are downloaded and force-loaded once at
module import (lines 11-16), but every call of `preprocess_text` additionally
reconstructs the lemmatizer and rebuilds the stopword set (lines 107-108):
after `n` calls the trace contains `n + 1` lemmatizer constructions and `n`
stopword-set constructions, rather than the once-at-start initialization the
claim states. -/
theorem resource_reconstruction_per_call (n : Nat) :
    (processTrace n).count ResourceEvent.mkLemmatizer = n + 1
    ∧ (processTrace n).count ResourceEvent.mkStopwordSet = n := by
  unfold processTrace
  rw [List.count_append, List.count_append, count_flatten_rep, count_flatten_rep]
  have h1 : moduleInitEvents.count ResourceEvent.mkLemmatizer = 1 := by decide
  have h2 : moduleInitEvents.count ResourceEvent.mkStopwordSet = 0 := by decide
  have h3 : preprocessCallResourceEvents.count ResourceEvent.mkLemmatizer = 1 := by decide
  have h4 : preprocessCallResourceEvents.count ResourceEvent.mkStopwordSet = 1 := by decide
  rw [h1, h2, h3, h4]
  omega

/-- C8: `preprocess_text` is total in all its inputs (modelled as a total
function, it can never raise); every non-string input — e.g. `None` or `42` —
yields the empty string, and repeated calls on equal inputs yield equal
outputs. -/
theorem preprocess_nonstring_total (tok : String → List String) (lem : String → String)
    (stop : String → Bool) (v : PyVal) (h : isStrVal v = false) :
    preprocessText tok lem stop v = ""
    ∧ preprocessText tok lem stop v = preprocessText tok lem stop v := by
  refine ⟨?_, rfl⟩
  cases v with
  | pstr s => simp [isStrVal] at h
  | pint n => rfl
  | pnone => rfl

/-- Witness for C8: `preprocess_text(None)` and `preprocess_text(42)` both
return the empty string. -/
theorem preprocess_nonstring_total_witness :
    (preprocessText (fun s => [s]) (fun s => s) (fun _ => false) PyVal.pnone = ""
      ∧ preprocessText (fun s => [s]) (fun s => s) (fun _ => false) PyVal.pnone
          = preprocessText (fun s => [s]) (fun s => s) (fun _ => false) PyVal.pnone)
    ∧ (preprocessText (fun s => [s]) (fun s => s) (fun _ => false) (PyVal.pint 42) = ""
      ∧ preprocessText (fun s => [s]) (fun s => s) (fun _ => false) (PyVal.pint 42)
          = preprocessText (fun s => [s]) (fun s => s) (fun _ => false) (PyVal.pint 42)) :=
  ⟨preprocess_nonstring_total _ _ _ _ rfl, preprocess_nonstring_total _ _ _ _ rfl⟩

/-- Counterexample to C5: a transcript record with no `content` key does not
fail the load — `data.get('content', [])` silently defaults to an empty turn
list and the flattened table is simply empty. -/
theorem missing_content_no_error :
    toDataFrame (JValue.obj [("t1", JValue.obj [("article_url", JValue.str "u")])])
      = Except.ok [] := rfl

/-- C5 (amended): `load_data` raises `FileNotFoundError` when the source file
does not exist; `to_dataframe` raises a generic `AttributeError` (not a
descriptive format error) when the top-level structure is not a mapping; and
a record that lacks the `content` key does not fail at all — it contributes
zero rows. -/
theorem load_and_flatten_failure_modes :
    loadData none = Except.error PyError.fileNotFound
    ∧ (∀ v : JValue, v.isObjB = false → toDataFrame v = Except.error PyError.attributeError)
    ∧ (∀ (tid : String) (fields : List (String × JValue)),
        jlookup "content" fields = none →
        toDataFrame (JValue.obj [(tid, JValue.obj fields)]) = Except.ok []) := by
  refine ⟨rfl, ?_, ?_⟩
  · intro v h
    cases v with
    | obj fields => simp [JValue.isObjB] at h
    | null => rfl
    | jbool b => rfl
    | num n => rfl
    | str s => rfl
    | arr elems => rfl
  · intro tid fields h
    simp only [toDataFrame, entriesRows, h, contentRows]
    rfl

/-- Witness for C5 (amended): a list top level raises `AttributeError`, a
record without `content` loads as zero rows, and a missing file raises
`FileNotFoundError`. -/
theorem load_and_flatten_failure_modes_witness :
    toDataFrame (JValue.arr []) = Except.error PyError.attributeError
    ∧ toDataFrame (JValue.obj [("t9", JValue.obj [("article_url", JValue.null)])])
        = Except.ok []
    ∧ loadData none = Except.error PyError.fileNotFound :=
  ⟨load_and_flatten_failure_modes.2.1 (JValue.arr []) rfl,
   load_and_flatten_failure_modes.2.2 "t9" [("article_url", JValue.null)] rfl,
   load_and_flatten_failure_modes.1⟩

/-- On any successful (`some`) outcome of the analysis prefix, the first
component is exactly the filtered table. -/
theorem analyzePre_some_shape (df : List Row) (tid : String)
    (q : List Row × Row × List (Option String × String) × String)
    (hp : analyzePre df tid = Except.ok (some q)) :
    q.1 = df.filter (fun x => x.transcript_id == tid) := by
  unfold analyzePre at hp
  cases hfil : df.filter (fun r => r.transcript_id == tid) with
  | nil => rw [hfil] at hp; simp at hp
  | cons r0 rest =>
    rw [hfil] at hp
    dsimp only at hp
    cases ho : overallLoop (r0 :: rest) (uniqueFirstSeen ((r0 :: rest).map (fun r => r.agent))) with
    | error e => rw [ho] at hp; simp at hp
    | ok overall =>
      rw [ho] at hp
      cases hj : joinMessages (r0 :: rest) with
      | error e => rw [hj] at hp; simp at hp
      | ok text =>
        rw [hj] at hp
        simp only [Except.ok.injEq, Option.some.injEq] at hp
        rw [← hp]

/-- A successful analysis decomposes into a successful prefix, a successful
collaborator step, and the result dict assembled from them. -/
theorem analyze_ok_shape (s : String → Except Unit (List String)) (df : List Row)
    (tid : String) (r : AnalysisResult)
    (h : analyzeTranscript s df tid = Except.ok (AnalyzeOutput.result r)) :
    ∃ tdf r0 overall text summary,
      analyzePre df tid = Except.ok (some (tdf, r0, overall, text))
      ∧ tdf = df.filter (fun x => x.transcript_id == tid)
      ∧ summaryOf s text = Except.ok summary
      ∧ r = mkResult tid tdf r0 overall summary := by
  unfold analyzeTranscript at h
  cases hp : analyzePre df tid with
  | error e => rw [hp] at h; simp at h
  | ok o =>
    rw [hp] at h
    cases o with
    | none => simp at h
    | some q =>
      obtain ⟨tdf, r0, overall, text⟩ := q
      dsimp only at h
      cases hs : summaryOf s text with
      | error e => rw [hs] at h; simp at h
      | ok summary =>
        rw [hs] at h
        simp only [Except.ok.injEq, AnalyzeOutput.result.injEq] at h
        exact ⟨tdf, r0, overall, text, summary, rfl, analyzePre_some_shape df tid _ hp, hs, h.symm⟩

/-- C1 (failing input): a transcript whose only agent has rows but only null
sentiments makes `analyze_transcript` raise `IndexError` at
`agent_sentiments.mode().iloc[0]` — `mode()` drops the nulls and returns an
empty series — instead of yielding the documented sentinel `"N/A"`; the
`else "N/A"` guard tests row emptiness, which cannot hold for an agent taken
from `unique()`, so the claimed sentinel is never produced for this case. -/
theorem analyze_all_null_sentiments_raises :
    analyzeTranscript sOK [rowNullSentiment] "t1" = Except.error PyError.indexError := rfl

/-- Counterexample to C2: a collaborator that raises makes `analyze_transcript`
itself raise — the failure is propagated to the caller, not recovered with a
fallback summary (there is no try/except around the call of lines 65-66). -/
theorem collaborator_failure_propagates :
    analyzeTranscript sFail [rowPositive] "t" = Except.error PyError.collaboratorError := rfl

/-- C2 (amended): on any transcript whose analysis succeeds, a collaborator
returning no result (an empty list) yields the fallback summary string
`"Could not generate summary."`, but a collaborator that raises makes
`analyze_transcript` raise as well — only the no-result failure mode is
recovered; a raised exception is propagated to the caller. -/
theorem analyze_collaborator_failure (df : List Row) (tid : String) (r : AnalysisResult)
    (h : analyzeTranscript sOK df tid = Except.ok (AnalyzeOutput.result r)) :
    analyzeTranscript sEmpty df tid
      = Except.ok (AnalyzeOutput.result
          { r with conversation_summary := "Could not generate summary." })
    ∧ analyzeTranscript sFail df tid = Except.error PyError.collaboratorError := by
  obtain ⟨tdf, r0, overall, text, summary, hp, htdf, hs, hr⟩ := analyze_ok_shape sOK df tid r h
  have hsummary : summary = "SUMMARY" := by
    have : summaryOf sOK text = Except.ok "SUMMARY" := rfl
    rw [this] at hs
    exact (Except.ok.injEq _ _ ▸ congrArg id hs) ▸ rfl
  subst hsummary
  subst hr
  unfold analyzeTranscript
  rw [hp]
  constructor
  · dsimp only
    have he : summaryOf sEmpty text = Except.ok "Could not generate summary." := rfl
    rw [he]
    simp [mkResult]
  · dsimp only
    have hf : summaryOf sFail text = Except.error PyError.collaboratorError := rfl
    rw [hf]

/-- Witness for C2 (amended): on the concrete one-row transcript
`[rowPositive]`, the empty-result collaborator yields the fallback string and
the raising collaborator propagates. -/
theorem analyze_collaborator_failure_witness :
    analyzeTranscript sEmpty [rowPositive] "t"
      = Except.ok (AnalyzeOutput.result
          { resPositive with conversation_summary := "Could not generate summary." })
    ∧ analyzeTranscript sFail [rowPositive] "t" = Except.error PyError.collaboratorError :=
  analyze_collaborator_failure [rowPositive] "t" resPositive rfl

/-- Counterexample to C9: a transcript whose only row belongs to agent
`"agent_3"` — one matching row for that agent — yields a `message_counts`
dict with no entry for `"agent_3"` at all (only the hardcoded `agent_1` and
`agent_2` keys, both 0). -/
theorem message_counts_missing_agent_counterexample :
    analyzeTranscript sOK [rowAgent3] "t1" = Except.ok (AnalyzeOutput.result resAgent3)
    ∧ resAgent3.message_counts.lookup "agent_3" = none
    ∧ agentCount [rowAgent3] "agent_3" = 1 :=
  ⟨rfl, rfl, rfl⟩

/-- C9 (amended): whenever `analyze_transcript` succeeds, `message_counts`
carries exactly the two hardcoded keys `"agent_1"` and `"agent_2"`, each
mapped to that agent's row count among the matching rows (0 when the agent
does not occur); an agent with any other name gets no entry, whatever its
row count. -/
theorem message_counts_hardcoded_agents (s : String → Except Unit (List String))
    (df : List Row) (tid : String) (r : AnalysisResult)
    (h : analyzeTranscript s df tid = Except.ok (AnalyzeOutput.result r)) :
    r.message_counts.lookup "agent_1"
      = some (agentCount (df.filter (fun x => x.transcript_id == tid)) "agent_1")
    ∧ r.message_counts.lookup "agent_2"
      = some (agentCount (df.filter (fun x => x.transcript_id == tid)) "agent_2")
    ∧ ∀ a : String, ¬a = "agent_1" → ¬a = "agent_2" →
        r.message_counts.lookup a = none := by
  obtain ⟨tdf, r0, overall, text, summary, hp, htdf, hs, hr⟩ := analyze_ok_shape s df tid r h
  subst hr
  subst htdf
  refine ⟨?_, ?_, ?_⟩
  · simp [mkResult, List.lookup]
  · simp [mkResult, List.lookup]
  · intro a ha1 ha2
    have e1 : (a == "agent_1") = false := by simp [ha1]
    have e2 : (a == "agent_2") = false := by simp [ha2]
    simp [mkResult, List.lookup, e1, e2]

/-- Witness for C9 (amended): on the concrete transcript `[rowPositive]` the
two hardcoded entries are present with the correct counts and an unrelated
agent name has none. -/
theorem message_counts_hardcoded_agents_witness :
    resPositive.message_counts.lookup "agent_1"
      = some (agentCount (List.filter (fun x => x.transcript_id == "t") [rowPositive]) "agent_1")
    ∧ resPositive.message_counts.lookup "agent_2"
      = some (agentCount (List.filter (fun x => x.transcript_id == "t") [rowPositive]) "agent_2")
    ∧ ∀ a : String, ¬a = "agent_1" → ¬a = "agent_2" →
        resPositive.message_counts.lookup a = none :=
  message_counts_hardcoded_agents sOK [rowPositive] "t" resPositive rfl
